import Mathlib

/-!
Verification of the plan/state reconciliation and lifecycle-mapping logic of
the terraform-provider-qnap repository, shallowly embedded in Lean.

Sources embedded:
  * internal/provider/container_resource.go — `isNotFound`, `ReadStateOrPlan`,
    `WriteState`, `CompareStates`, and the container lifecycle handlers;
  * the application (compose) resource file — `validateYAML`, `isAppNotFound`,
    and its lifecycle handlers;
  * the legacy container resource variant — the post-create desired-status
    reconciliation.

Terraform's three-valued attribute state (unknown / null / known value) is
modelled by `TF`.  Collaborator libraries (Go `fmt`, `encoding/json`,
`strings`, the YAML library) are modelled only to the extent the embedded
functions depend on them, faithfully to their documented behaviour on the
inputs the provider feeds them.
-/

namespace Qnap

/-- Terraform's three-valued attribute state: an attribute is unknown
(not yet computed), null, or holds a known value.  Mirrors
`attr.ValueState` of the plugin framework. -/
inductive TF (α : Type) where
  | unknown : TF α
  | null : TF α
  | value (a : α) : TF α
deriving Repr, DecidableEq

namespace TF

/-- `IsUnknown()` of the plugin framework. -/
def isUnknown : TF α → Bool
  | .unknown => true
  | _ => false

/-- `IsNull()` of the plugin framework. -/
def isNull : TF α → Bool
  | .null => true
  | _ => false

/-- `ValueString()`: the known value, or the zero value `""` for
null/unknown. -/
def valueStr : TF String → String
  | .value s => s
  | _ => ""

/-- `ValueBool()`: the known value, or the zero value `false`. -/
def valueBool : TF Bool → Bool
  | .value b => b
  | _ => false

/-- `ValueInt32()`: the known value, or the zero value `0`. -/
def valueInt : TF Int → Int
  | .value n => n
  | _ => 0

/-- `Elements()` of a framework map/list value: a null or unknown collection
has no elements. -/
def elems : TF (List α) → List α
  | .value xs => xs
  | _ => []

end TF

/-- Go `strings.ToLower` (ASCII range, which is all the provider feeds
it). -/
def lowerString (s : String) : String :=
  String.mk (s.data.map Char.toLower)

/-- One step of Go `strings.Split(s, sep)` for a non-empty separator:
left-to-right scan, split at each occurrence.  Fuelled so that the
recursion is structural. -/
def goSplitAux (sep : List Char) : Nat → List Char → List Char → List String
  | _, [], acc => [String.mk acc.reverse]
  | 0, cs, acc => [String.mk (acc.reverse ++ cs)]
  | fuel + 1, c :: cs, acc =>
    if sep.isPrefixOf (c :: cs) then
      String.mk acc.reverse :: goSplitAux sep fuel ((c :: cs).drop sep.length) []
    else
      goSplitAux sep fuel cs (c :: acc)

/-- Go `strings.Split(s, sep)` (non-empty `sep`). -/
def goSplit (s sep : String) : List String :=
  goSplitAux sep.data (s.data.length + 1) s.data []

/-! ### Go `fmt.Sscanf(err, "status: %d,", &status)` -/

/-- Digits to a natural number, most significant first. -/
def digitsToNat (ds : List Char) : Nat :=
  ds.foldl (fun acc c => acc * 10 + (c.toNat - '0'.toNat)) 0

/-- Skip blanks and tabs, as `Sscanf` does before a `%d` verb. -/
def skipScanSpaces : List Char → List Char
  | c :: cs => if c = ' ' ∨ c = '\t' then skipScanSpaces cs else c :: cs
  | [] => []

/-- Model of `fmt.Sscanf(s, "status: %d,", &status)`: the literal text
`status:`, optional blanks, a (possibly signed) decimal integer, then the
literal `,`.  Returns the integer on success. -/
def scanStatus (s : String) : Option Int :=
  match s.data with
  | 's' :: 't' :: 'a' :: 't' :: 'u' :: 's' :: ':' :: rest =>
    let rest := skipScanSpaces rest
    let (neg, rest) := match rest with
      | '-' :: r => (true, r)
      | _ => (false, rest)
    let ds := rest.takeWhile Char.isDigit
    let after := rest.drop ds.length
    if ds.isEmpty then none
    else
      match after with
      | ',' :: _ =>
        let n : Int := Int.ofNat (digitsToNat ds)
        some (if neg then -n else n)
      | _ => none
  | _ => none

/-- First index at which `pat` occurs as a contiguous sublist, as Go
`strings.Index`. -/
def findSub (pat : List Char) : List Char → Option Nat
  | [] => if pat.isEmpty then some 0 else none
  | c :: cs =>
    if pat.isPrefixOf (c :: cs) then some 0
    else (findSub pat cs).map (· + 1)

/-! ### Go `encoding/json` model

Only what `json.Unmarshal` into `struct { Code int; Message string }` needs:
a strict JSON value grammar, case-insensitive field matching, unknown fields
ignored, `null` leaving the zero value in place, and an error whenever a
present `code`/`message` field has the wrong kind.  Unicode `\uXXXX` string
escapes are outside the error bodies the remote API produces and are treated
as unparseable. -/

/-- A parsed JSON value.  Numbers keep their integer part together with a
flag telling whether the literal was a plain integer (no fraction or
exponent), since unmarshalling a non-integer number into a Go `int`
errors. -/
inductive JVal where
  | jnull : JVal
  | jbool (b : Bool) : JVal
  | jnum (n : Int) (isInt : Bool) : JVal
  | jstr (s : String) : JVal
  | jarr (xs : List JVal) : JVal
  | jobj (fields : List (String × JVal)) : JVal
deriving Repr

/-- Skip JSON whitespace. -/
def skipWs : List Char → List Char
  | c :: cs => if c = ' ' ∨ c = '\t' ∨ c = '\n' ∨ c = '\r' then skipWs cs else c :: cs
  | [] => []

/-- Body of a JSON string literal (after the opening quote), fuelled. -/
def parseStrBody : Nat → List Char → List Char → Option (String × List Char)
  | 0, _, _ => none
  | _ + 1, acc, '"' :: rest => some (String.mk acc.reverse, rest)
  | fuel + 1, acc, '\\' :: e :: rest =>
    match e with
    | '"' => parseStrBody fuel ('"' :: acc) rest
    | '\\' => parseStrBody fuel ('\\' :: acc) rest
    | '/' => parseStrBody fuel ('/' :: acc) rest
    | 'n' => parseStrBody fuel ('\n' :: acc) rest
    | 't' => parseStrBody fuel ('\t' :: acc) rest
    | 'r' => parseStrBody fuel ('\r' :: acc) rest
    | 'b' => parseStrBody fuel ((Char.ofNat 8) :: acc) rest
    | 'f' => parseStrBody fuel ((Char.ofNat 12) :: acc) rest
    | _ => none
  | fuel + 1, acc, c :: rest =>
    if c = '\\' then none else parseStrBody fuel (c :: acc) rest
  | _ + 1, _, [] => none

/-- A JSON number literal: optional sign, strict integer part (no leading
zeros), optional fraction and exponent. -/
def parseNum (cs : List Char) : Option (JVal × List Char) :=
  let (neg, rest) := match cs with
    | '-' :: r => (true, r)
    | _ => (false, cs)
  let ds := rest.takeWhile Char.isDigit
  if ds.isEmpty then none
  else if ds.length > 1 ∧ ds.headI = '0' then none
  else
    let afterInt := rest.drop ds.length
    let n : Int := Int.ofNat (digitsToNat ds)
    let n := if neg then -n else n
    match afterInt with
    | '.' :: r =>
      let fs := r.takeWhile Char.isDigit
      if fs.isEmpty then none
      else
        let afterFrac := r.drop fs.length
        match afterFrac with
        | 'e' :: r2 | 'E' :: r2 =>
          let (r3) := match r2 with
            | '+' :: t => t
            | '-' :: t => t
            | _ => r2
          let es := r3.takeWhile Char.isDigit
          if es.isEmpty then none
          else some (JVal.jnum n false, r3.drop es.length)
        | _ => some (JVal.jnum n false, afterFrac)
    | 'e' :: r2 | 'E' :: r2 =>
      let (r3) := match r2 with
        | '+' :: t => t
        | '-' :: t => t
        | _ => r2
      let es := r3.takeWhile Char.isDigit
      if es.isEmpty then none
      else some (JVal.jnum n false, r3.drop es.length)
    | _ => some (JVal.jnum n true, afterInt)

/-- Mode of the recursive-descent JSON reader: a single value, the
remaining elements of an array, or the remaining fields of an object. -/
inductive JMode where
  | val : JMode
  | arrElems (acc : List JVal) : JMode
  | objFields (acc : List (String × JVal)) : JMode

/-- Fuelled recursive-descent JSON reader (one function so that the
recursion is structural on the fuel). -/
def parseStep : Nat → JMode → List Char → Option (JVal × List Char)
  | 0, _, _ => none
  | fuel + 1, .val, cs =>
    (match skipWs cs with
     | 'n' :: 'u' :: 'l' :: 'l' :: rest => some (.jnull, rest)
     | 't' :: 'r' :: 'u' :: 'e' :: rest => some (.jbool true, rest)
     | 'f' :: 'a' :: 'l' :: 's' :: 'e' :: rest => some (.jbool false, rest)
     | '"' :: rest =>
       (parseStrBody (rest.length + 1) [] rest).map (fun p => (JVal.jstr p.1, p.2))
     | '[' :: rest =>
       (match skipWs rest with
        | ']' :: r => some (JVal.jarr [], r)
        | other => parseStep fuel (.arrElems []) other)
     | '\x7b' :: rest =>
       (match skipWs rest with
        | '\x7d' :: r => some (JVal.jobj [], r)
        | other => parseStep fuel (.objFields []) other)
     | other => parseNum other)
  | fuel + 1, .arrElems acc, cs =>
    (match parseStep fuel .val cs with
     | none => none
     | some (v, rest) =>
       match skipWs rest with
       | ',' :: r => parseStep fuel (.arrElems (v :: acc)) r
       | ']' :: r => some (JVal.jarr (v :: acc).reverse, r)
       | _ => none)
  | fuel + 1, .objFields acc, cs =>
    (match skipWs cs with
     | '"' :: rest =>
       (match parseStrBody (rest.length + 1) [] rest with
        | none => none
        | some (key, afterKey) =>
          match skipWs afterKey with
          | ':' :: afterColon =>
            (match parseStep fuel .val afterColon with
             | none => none
             | some (v, afterVal) =>
               match skipWs afterVal with
               | ',' :: r => parseStep fuel (.objFields ((key, v) :: acc)) r
               | '\x7d' :: r => some (JVal.jobj ((key, v) :: acc).reverse, r)
               | _ => none)
          | _ => none)
     | _ => none)

/-- One JSON value. -/
def parseJVal (fuel : Nat) (cs : List Char) : Option (JVal × List Char) :=
  parseStep fuel .val cs

/-- Fold the fields of a JSON object into `struct { Code int; Message
string }` the way `encoding/json` does: names match case-insensitively, the
last occurrence wins, `null` keeps the zero value, a wrong kind errors,
unknown fields are ignored. -/
def decodeCodeMessage (fields : List (String × JVal)) : Option (Int × String) :=
  fields.foldlM
    (fun acc kv =>
      if lowerString kv.1 = "code" then
        match kv.2 with
        | .jnum n true => some (n, acc.2)
        | .jnull => some acc
        | _ => none
      else if lowerString kv.1 = "message" then
        match kv.2 with
        | .jstr s => some (acc.1, s)
        | .jnull => some acc
        | _ => none
      else some acc)
    (0, "")

/-- `json.Unmarshal(jsonStr, &resp)` for `resp` of shape
`{ code : int, message : string }`: one complete JSON object followed only
by whitespace. -/
def unmarshalCodeMessage (cs : List Char) : Option (Int × String) :=
  match parseJVal (cs.length + 1) cs with
  | some (.jobj fields, rest) =>
    if (skipWs rest).isEmpty then decodeCodeMessage fields else none
  | _ => none

/-- `isNotFound` of container_resource.go.  `none` models a Go runtime
panic: when status is 404 and code is 1009, the code indexes
`strings.Split(resp.Message, ": ")[1]` without checking that the split
produced a second element. -/
def isNotFound (mess : String) : Option Bool :=
  match scanStatus mess with
  | none => some false
  | some status =>
    match findSub ("body: \x7b".data) mess.data with
    | none => some false
    | some start =>
      let jsonStr := mess.data.drop (start + 6)
      match unmarshalCodeMessage jsonStr with
      | none => some false
      | some (code, message) =>
        if status = 404 ∧ code = 1009 then
          match (goSplit message ": ")[1]? with
          | none => none
          | some seg => some (seg = "No such container")
        else some false

/-- `isAppNotFound` of the compose application resource: same scanning, but
the message is compared whole against `"cannot find compose"`, so it never
panics. -/
def isAppNotFound (mess : String) : Bool :=
  match scanStatus mess with
  | none => false
  | some status =>
    match findSub ("body: \x7b".data) mess.data with
    | none => false
    | some start =>
      let jsonStr := mess.data.drop (start + 6)
      match unmarshalCodeMessage jsonStr with
      | none => false
      | some (code, message) =>
        decide (status = 404 ∧ code = 1009 ∧ message = "cannot find compose")

/-! ### Data model: plan/state (`ContainerSpecModel`) and the client's
request/response structures -/

/-- Nested device attribute object of the plan (`DevicesModel`). -/
structure DevicesModel where
  name : TF String
  permission : TF String
deriving Repr, DecidableEq

/-- Nested volume attribute object of the plan (`VolumesModel`). -/
structure VolumesModel where
  type : TF String
  name : TF String
  container : TF String
  source : TF String
  destination : TF String
  permission : TF String
deriving Repr, DecidableEq

/-- Nested port-binding attribute object of the plan
(`PortBindingsModel`). -/
structure PortBindingsModel where
  host : TF Int
  container : TF Int
  protocol : TF String
  hostIP : TF String
deriving Repr, DecidableEq

/-- Nested restart-policy attribute object (`RestartPolicyModel`). -/
structure RestartPolicyModel where
  name : TF String
  maximumRetryCount : TF Int
deriving Repr, DecidableEq

/-- Nested cpu-pin attribute object (`CpupinModel`). -/
structure CpupinModel where
  cpuIDs : TF String
  type : TF String
deriving Repr, DecidableEq

/-- Nested network attribute object of the state (`NetworkModel`). -/
structure NetworkModel where
  id : TF String
  name : TF String
  ipAddress : TF String
  displayName : TF String
  macAddress : TF String
  gateway : TF String
  networkType : TF String
  isStaticIP : TF Bool
deriving Repr, DecidableEq

/-- The container resource's plan/state model (`ContainerSpecModel`).
Maps and string lists keep the framework's element tri-state where the Go
code can observe it (`cmd`/`entrypoint`/`dns` elements are rendered with
`String()`). -/
structure ContainerSpecModel where
  id : TF String
  type : TF String
  name : TF String
  image : TF String
  ipAddress : TF String
  autoRemove : TF Bool
  tty : TF Bool
  openStdin : TF Bool
  network : TF String
  networkType : TF String
  hostname : TF String
  lastUpdated : TF String
  runtime : TF String
  privileged : TF Bool
  removeAnonVolumes : TF Bool
  env : TF (List (String × String))
  labels : TF (List (String × String))
  devices : TF (List DevicesModel)
  volumes : TF (List VolumesModel)
  portBindings : TF (List PortBindingsModel)
  networks : TF (List NetworkModel)
  cpupin : TF CpupinModel
  restartPolicy : TF RestartPolicyModel
  cmd : TF (List (TF String))
  entrypoint : TF (List (TF String))
  dns : TF (List (TF String))
  status : TF String
deriving Repr, DecidableEq

/-- Client request/response device entry (`qnap.Devices`). -/
structure Devices where
  name : String
  permission : String
deriving Repr, DecidableEq

/-- Client request/response volume entry (`qnap.Volumes`). -/
structure Volumes where
  type : String
  name : String
  container : String
  source : String
  destination : String
  permission : String
deriving Repr, DecidableEq

/-- Client request/response port binding (`qnap.PortBindings`). -/
structure PortBindings where
  host : Int
  container : Int
  protocol : String
  hostIP : String
deriving Repr, DecidableEq

/-- Client restart policy (`qnap.RestartPolicy`). -/
structure RestartPolicy where
  name : String
  maximumRetryCount : Int
deriving Repr, DecidableEq

/-- Client cpu pin (`qnap.Cpupin`). -/
structure Cpupin where
  cpuIDs : String
  type : String
deriving Repr, DecidableEq

/-- The outgoing create request (`qnap.NewContainerSpec`); fields start at
their Go zero values and are filled by `ReadStateOrPlan`. -/
structure NewContainerSpec where
  type : String
  name : String
  image : String
  autoRemove : Bool
  tty : Bool
  openStdin : Bool
  network : String
  networkType : String
  hostname : String
  runtime : String
  privileged : Bool
  ipAddress : String
  devices : List Devices
  volumes : List Volumes
  portBindings : List PortBindings
  restartPolicy : RestartPolicy
  cpupin : Cpupin
  env : List (String × String)
  labels : List (String × String)
  cmd : List String
  entrypoint : List String
  dns : List String
deriving Repr, DecidableEq

/-- Network object of the inspect/create response
(`ContainerInfo.Data.Networks` elements). -/
structure RespNetwork where
  id : String
  name : String
  ipAddress : String
  displayName : String
  macAddress : String
  gateway : String
  networkType : String
  isStaticIP : Bool
deriving Repr, DecidableEq

/-- Payload of the client's create/inspect response
(`qnap.ContainerInfo.Data`). -/
structure ContainerData where
  id : String
  name : String
  image : String
  type : String
  status : String
  hostname : String
  runtime : String
  autoRemove : Bool
  tty : Bool
  openStdin : Bool
  privileged : Bool
  cmd : List String
  entrypoint : List String
  dns : List String
  env : List (String × String)
  labels : List (String × String)
  networks : List RespNetwork
  volumes : List Volumes
  devices : List Devices
  portBindings : List PortBindings
  restartPolicy : RestartPolicy
  cpupin : Cpupin
deriving Repr, DecidableEq

/-- A framework diagnostic: non-fatal warning or fatal error, each a
(summary, detail) pair. -/
inductive Diag where
  | warning (summary detail : String) : Diag
  | error (summary detail : String) : Diag
deriving Repr, DecidableEq

/-- Whether a diagnostic is fatal. -/
def Diag.isErr : Diag → Bool
  | .error _ _ => true
  | _ => false

/-! ### Spec → request mapping (`ReadStateOrPlan`) -/

/-- `fmt %q` quoting of one character, for the characters the provider's
string attributes contain (quote and backslash escaped, others as-is). -/
def goQuoteChar (c : Char) : List Char :=
  if c = '"' ∨ c = '\\' then ['\\', c] else [c]

/-- `fmt.Sprintf("%q", s)` as used by the framework's `String()` on a known
string value. -/
def goQuote (s : String) : String :=
  String.mk ('"' :: s.data.flatMap goQuoteChar ++ ['"'])

/-- `attr.Value.String()` on a `cmd`/`entrypoint`/`dns` element: quoted for
known values, placeholder text for unknown/null. -/
def tfElemRender : TF String → String
  | .unknown => "<unknown>"
  | .null => "<null>"
  | .value s => goQuote s

/-- `strings.Replace(s, quote, empty, -1)`: drop every double-quote
character. -/
def stripQuotes (s : String) : String :=
  String.mk (s.data.filter (fun c => c ≠ '"'))

/-- The known value of an object attribute; the guard in `ReadStateOrPlan`
ensures the fallback is never used. -/
def TF.objOr (x : TF α) (dflt : α) : α :=
  match x with
  | .value a => a
  | _ => dflt

/-- Device-entry loop of `ReadStateOrPlan`.  The source checks only
`Name.IsUnknown()` and `Permission.IsNull()` (each twice — the second pair
of checks is unreachable), so a null name or an unknown permission does NOT
skip the entry. -/
def processDevices : List DevicesModel → List Devices × List Diag
  | [] => ([], [])
  | d :: rest =>
    let (es, ws) := processDevices rest
    if d.name.isUnknown then
      (es, .warning "Device key is unknown" "The device_key is unknown, skipping processing." :: ws)
    else if d.permission.isNull then
      (es, .warning "Device key is null" "The device_key is null, skipping processing." :: ws)
    else if d.name.isUnknown then
      (es, .warning "Device value is unknown" "The device_value is unknown, skipping processing." :: ws)
    else if d.permission.isNull then
      (es, .warning "Device value is null" "The device_value is null, skipping processing." :: ws)
    else
      (⟨d.name.valueStr, d.permission.valueStr⟩ :: es, ws)

/-- The volume-entry skip condition: any sub-field unknown or null. -/
def volumeSkipped (v : VolumesModel) : Bool :=
  v.type.isUnknown || v.type.isNull ||
  v.name.isUnknown || v.name.isNull ||
  v.container.isUnknown || v.container.isNull ||
  v.source.isUnknown || v.source.isNull ||
  v.destination.isUnknown || v.destination.isNull ||
  v.permission.isUnknown || v.permission.isNull

/-- Volume-entry loop of `ReadStateOrPlan`. -/
def processVolumes : List VolumesModel → List Volumes × List Diag
  | [] => ([], [])
  | v :: rest =>
    let (es, ws) := processVolumes rest
    if volumeSkipped v then
      (es, .warning "Volume attributes are unknown or null" "Skipping processing of a volume because one or more attributes are unknown or null." :: ws)
    else
      (⟨v.type.valueStr, v.name.valueStr, v.container.valueStr, v.source.valueStr,
        v.destination.valueStr, v.permission.valueStr⟩ :: es, ws)

/-- The port-binding skip condition: any sub-field unknown or null. -/
def portBindingSkipped (p : PortBindingsModel) : Bool :=
  p.host.isUnknown || p.host.isNull ||
  p.container.isUnknown || p.container.isNull ||
  p.protocol.isUnknown || p.protocol.isNull ||
  p.hostIP.isUnknown || p.hostIP.isNull

/-- Port-binding loop of `ReadStateOrPlan`. -/
def processPortBindings : List PortBindingsModel → List PortBindings × List Diag
  | [] => ([], [])
  | p :: rest =>
    let (es, ws) := processPortBindings rest
    if portBindingSkipped p then
      (es, .warning "Port binding attributes are unknown or null" "Skipping processing of a port binding because one or more attributes are unknown or null." :: ws)
    else
      (⟨p.host.valueInt, p.container.valueInt, p.protocol.valueStr, p.hostIP.valueStr⟩ :: es, ws)

/-- `ReadStateOrPlan`: maps the plan to a `NewContainerSpec`, skipping
structured entries with missing sub-fields (warning, not error) and
stripping quote characters from the rendered `cmd`/`entrypoint`/`dns`
elements. -/
def ReadStateOrPlan (plan : ContainerSpecModel) : NewContainerSpec × List Diag :=
  let (devs, devWs) :=
    if !plan.devices.isNull && !plan.devices.isUnknown then processDevices plan.devices.elems
    else ([], [])
  let (vols, volWs) :=
    if !plan.volumes.isNull && !plan.volumes.isUnknown then processVolumes plan.volumes.elems
    else ([], [])
  let (pbs, pbWs) :=
    if !plan.portBindings.isNull && !plan.portBindings.isUnknown then
      processPortBindings plan.portBindings.elems
    else ([], [])
  let (rp, rpWs) :=
    if !plan.restartPolicy.isNull && !plan.restartPolicy.isUnknown then
      let p := plan.restartPolicy.objOr ⟨.null, .null⟩
      if p.name.isUnknown || p.name.isNull ||
         p.maximumRetryCount.isUnknown || p.maximumRetryCount.isNull then
        ((⟨"", 0⟩ : RestartPolicy),
         [Diag.warning "Port binding attributes are unknown or null" "Skipping processing of a port binding because one or more attributes are unknown or null."])
      else
        ((⟨p.name.valueStr, p.maximumRetryCount.valueInt⟩ : RestartPolicy), [])
    else ((⟨"", 0⟩ : RestartPolicy), [])
  let (cp, cpWs) :=
    if !plan.cpupin.isNull && !plan.cpupin.isUnknown then
      let p := plan.cpupin.objOr ⟨.null, .null⟩
      if p.cpuIDs.isUnknown || p.cpuIDs.isNull || p.type.isUnknown || p.type.isNull then
        ((⟨"", ""⟩ : Cpupin),
         [Diag.warning "Port binding attributes are unknown or null" "Skipping processing of a port binding because one or more attributes are unknown or null."])
      else
        ((⟨p.cpuIDs.valueStr, p.type.valueStr⟩ : Cpupin), [])
    else ((⟨"", ""⟩ : Cpupin), [])
  ({ type := plan.type.valueStr
     name := plan.name.valueStr
     image := plan.image.valueStr
     autoRemove := plan.autoRemove.valueBool
     tty := plan.tty.valueBool
     openStdin := plan.openStdin.valueBool
     network := plan.network.valueStr
     networkType := plan.networkType.valueStr
     hostname := plan.hostname.valueStr
     runtime := plan.runtime.valueStr
     privileged := plan.privileged.valueBool
     ipAddress := plan.ipAddress.valueStr
     devices := devs
     volumes := vols
     portBindings := pbs
     restartPolicy := rp
     cpupin := cp
     env := plan.env.elems
     labels := plan.labels.elems
     cmd := plan.cmd.elems.map (fun i => stripQuotes (tfElemRender i))
     entrypoint := plan.entrypoint.elems.map (fun i => stripQuotes (tfElemRender i))
     dns := plan.dns.elems.map (fun i => stripQuotes (tfElemRender i)) },
   devWs ++ volWs ++ pbWs ++ rpWs ++ cpWs)

/-! ### Response → state mapping (`WriteState`) -/

/-- Response network → state network object. -/
def respNetToModel (n : RespNetwork) : NetworkModel :=
  ⟨.value n.id, .value n.name, .value n.ipAddress, .value n.displayName,
   .value n.macAddress, .value n.gateway, .value n.networkType, .value n.isStaticIP⟩

/-- Response volume → state volume object. -/
def volToModel (v : Volumes) : VolumesModel :=
  ⟨.value v.type, .value v.name, .value v.container, .value v.source,
   .value v.destination, .value v.permission⟩

/-- Response device → state device object. -/
def devToModel (d : Devices) : DevicesModel :=
  ⟨.value d.name, .value d.permission⟩

/-- Response port binding → state object; the protocol is lower-cased
(`strings.ToLower`). -/
def pbToModel (p : PortBindings) : PortBindingsModel :=
  ⟨.value p.host, .value p.container, .value (lowerString p.protocol), .value p.hostIP⟩

/-- `WriteState`: builds a fresh state from the response.  `none` models the
Go runtime panic from the unconditional `container.Data.Networks[0]` access
when the response carries no network.  The `network` and
`removeanonvolumes` attributes are never written (they stay at the zero
value, null); `ipaddress` starts null in the fresh model, so the
single-network rule always applies.  `now` stands for the
`time.Now().Format(time.RFC850)` timestamp. -/
def WriteState (now : String) (c : ContainerData) : Option ContainerSpecModel :=
  match c.networks with
  | [] => none
  | n0 :: _ =>
    some
      { id := .value c.id
        autoRemove := .value c.autoRemove
        cmd := .value (c.cmd.map TF.value)
        tty := .value c.tty
        openStdin := .value c.openStdin
        hostname := .value c.hostname
        runtime := .value c.runtime
        privileged := .value c.privileged
        name := .value c.name
        image := .value c.image
        type := .value c.type
        status := .value c.status
        networkType := .value n0.networkType
        entrypoint := .value (c.entrypoint.map TF.value)
        dns := .value (c.dns.map TF.value)
        env := .value c.env
        labels := .value c.labels
        networks := .value (c.networks.map respNetToModel)
        ipAddress := .value (if c.networks.length = 1 ∧ n0.ipAddress ≠ "" then n0.ipAddress else "")
        volumes := .value (c.volumes.map volToModel)
        devices := .value (c.devices.map devToModel)
        portBindings := .value (c.portBindings.map pbToModel)
        restartPolicy := .value ⟨.value c.restartPolicy.name, .value c.restartPolicy.maximumRetryCount⟩
        cpupin := .value ⟨.value c.cpupin.cpuIDs, .value c.cpupin.type⟩
        lastUpdated := .value now
        network := .null
        removeAnonVolumes := .null }

/-- `CompareStates`: the stub returns the freshly fetched state verbatim
with empty diagnostics. -/
def CompareStates (_plan state : ContainerSpecModel) : ContainerSpecModel × List Diag :=
  (state, [])

/-! ### Lifecycle controllers -/

/-- An API-client call issued by a lifecycle handler. -/
inductive ApiCall where
  | createContainer (spec : NewContainerSpec) : ApiCall
  | inspectContainer (id type : String) : ApiCall
  | startContainer (id type : String) : ApiCall
  | stopContainer (id type : String) : ApiCall
  | deleteContainer (id type : String) (removeAnonVolumes : Bool) : ApiCall
deriving Repr, DecidableEq

/-- Whether a call is a container start. -/
def ApiCall.isStart : ApiCall → Bool
  | .startContainer _ _ => true
  | _ => false

/-- Whether a call is a container stop. -/
def ApiCall.isStop : ApiCall → Bool
  | .stopContainer _ _ => true
  | _ => false

/-- Outcome of the container `Read` handler. -/
inductive ReadOutcome where
  | removed : ReadOutcome
  | aborted (summary detail : String) (kept : ContainerSpecModel) : ReadOutcome
  | panicked : ReadOutcome
  | updated (s : ContainerSpecModel) : ReadOutcome
deriving Repr, DecidableEq

/-- `containerResource.Read` of container_resource.go: inspect by stored
id/type; a not-found error removes the resource from state, any other error
aborts with the prior state untouched; on success the fetched state (via
`WriteState` and the `CompareStates` stub) is adopted, with
`removeanonvolumes` and `network` carried over from the prior state.
`panicked` covers the two Go panics reachable here (the classification's
unchecked split index, and `WriteState` on an empty network list). -/
def containerRead (now : String) (prior : ContainerSpecModel)
    (inspect : Except String ContainerData) : ReadOutcome :=
  match inspect with
  | .error e =>
    match isNotFound e with
    | none => .panicked
    | some true => .removed
    | some false =>
      .aborted "Unable to Read Resource"
        ("An error occurred while reading the resource: " ++ e) prior
  | .ok c =>
    match WriteState now c with
    | none => .panicked
    | some newState =>
      let final := (CompareStates prior newState).1
      .updated { final with removeAnonVolumes := prior.removeAnonVolumes, network := prior.network }

/-- State persisted by `containerResource.Create` after a successful create
call: `WriteState` of the response, with `removeanonvolumes` and `network`
re-attached from the plan.  `none` models the `WriteState` panic. -/
def containerCreateState (now : String) (plan : ContainerSpecModel)
    (c : ContainerData) : Option ContainerSpecModel :=
  (WriteState now c).map
    (fun s => { s with removeAnonVolumes := plan.removeAnonVolumes, network := plan.network })

/-- API calls issued by the current `containerResource.Create` given a
successful create response: exactly the create call — the handler never
issues a start or stop call. -/
def containerCreateCalls (plan : ContainerSpecModel) (_resp : ContainerData) : List ApiCall :=
  [.createContainer (ReadStateOrPlan plan).1]

/-- Post-create desired-status reconciliation of the legacy container
resource variant: by this point the handler has set `plan.ID` to the
response's id, and compares the plan's desired status with the response's
actual status. -/
def legacyStatusRecon (plan : ContainerSpecModel) (c : ContainerData) : List ApiCall :=
  if plan.status.valueStr = "running" ∧ c.status ≠ "running" then
    [.startContainer c.id plan.type.valueStr]
  else if plan.status.valueStr = "stopped" ∧ c.status ≠ "stopped" then
    [.stopContainer c.id plan.type.valueStr]
  else []

/-- `containerResource.Delete`: one delete call carrying the stored id,
type, and the `removeanonvolumes` flag from the persisted state. -/
def containerDeleteCalls (st : ContainerSpecModel) : List ApiCall :=
  [.deleteContainer st.id.valueStr st.type.valueStr st.removeAnonVolumes.valueBool]

/-- `containerResource.Update`: the body is empty (TODO in the source) — no
API call, the response state untouched. -/
def containerUpdate (_plan prior : ContainerSpecModel) : ContainerSpecModel × List ApiCall :=
  (prior, [])

/-! ### Compose application resource -/

/-- Nested default-url object of the application plan. -/
structure DefaultURLModel where
  port : TF Int
  service : TF String
deriving Repr, DecidableEq

/-- Nested container record of the application state. -/
structure ContainersModel where
  id : TF String
  name : TF String
deriving Repr, DecidableEq

/-- The compose application resource's plan/state model (`AppSpecModel`). -/
structure AppSpecModel where
  lastUpdated : TF String
  name : TF String
  yml : TF String
  defaultURL : TF DefaultURLModel
  containers : TF (List ContainersModel)
  cpuLimit : TF Int
  memLimit : TF Int
  memReservation : TF Int
  removeAnonVolumes : TF Bool
  status : TF String
deriving Repr, DecidableEq

/-- `appResource.Update` of the compose application resource: the body is
empty — no API call, the response state untouched. -/
def appUpdate (_plan prior : AppSpecModel) : AppSpecModel × List ApiCall :=
  (prior, [])

/-! ### Compose document validation (`validateYAML`)

The YAML (un)marshalling itself is the collaborator library; `validateYAML`
is modelled over the parse outcome (`none` = unparseable input) and an
abstract re-serializer.  Only the fields the validation inspects are
modelled; the rest of the document rides along inside the abstract
serializer. -/

/-- `build:` block of a compose service (`BuildConfig`); only `context` is
inspected. -/
structure BuildConfig where
  context : String
  dockerfile : String
deriving Repr, DecidableEq

/-- A compose service; only `image` and `build` are inspected. -/
structure ComposeService where
  image : String
  build : BuildConfig
deriving Repr, DecidableEq

/-- A parsed compose document (`ComposeFile`): version and the service map
(as an association list — Go map iteration order only affects which
offending service an error names, not whether an error occurs). -/
structure ComposeFile where
  version : String
  services : List (String × ComposeService)
deriving Repr, DecidableEq

/-- A single-quote character, used in the offending-service error text. -/
def sq : String := String.singleton (Char.ofNat 39)

/-- `validateYAML`: reject unparseable input, an empty version, an empty
service map, or a service with neither image nor build context; otherwise
re-serialize the parsed document. -/
def validateYAML (marshal : ComposeFile → String) (parsed : Option ComposeFile) :
    Except String String :=
  match parsed with
  | none => .error "invalid YAML"
  | some compose =>
    if compose.version = "" then .error "missing required field: version"
    else if compose.services.isEmpty then .error "no services defined"
    else
      match compose.services.find? (fun p => p.2.image == "" && p.2.build.context == "") with
      | some p =>
        .error ("service " ++ sq ++ p.1 ++ sq ++ " must have either an image or a build context")
      | none => .ok (marshal compose)

/-! ### The round-trip echo response

For the mapping round-trip law the simulated server response reflects every
request field back unchanged into the corresponding response field; the
fields the request does not determine (server-assigned id, actual status,
the assigned network's details beyond name/type/ip) are parameters. -/

/-- A response echoing the request: one network carrying the requested
network name, type and ip address; all list/map/scalar request fields
copied verbatim. -/
def echoResponse (req : NewContainerSpec) (cid status : String) : ContainerData :=
  { id := cid
    name := req.name
    image := req.image
    type := req.type
    status := status
    hostname := req.hostname
    runtime := req.runtime
    autoRemove := req.autoRemove
    tty := req.tty
    openStdin := req.openStdin
    privileged := req.privileged
    cmd := req.cmd
    entrypoint := req.entrypoint
    dns := req.dns
    env := req.env
    labels := req.labels
    networks := [⟨"", req.network, req.ipAddress, "", "", "", req.networkType, false⟩]
    volumes := req.volumes
    devices := req.devices
    portBindings := req.portBindings
    restartPolicy := req.restartPolicy
    cpupin := req.cpupin }

/-- Request port binding → fully-known plan object (no case change: the
lower-casing happens only on the response path). -/
def pbToPlanModel (b : PortBindings) : PortBindingsModel :=
  ⟨.value b.host, .value b.container, .value b.protocol, .value b.hostIP⟩

/-- A fully-known plan given by plain data: every attribute of the
resulting `ContainerSpecModel` is a known value (the premise of the
round-trip law). -/
structure PlainSpec where
  type : String
  name : String
  image : String
  ipAddress : String
  autoRemove : Bool
  tty : Bool
  openStdin : Bool
  network : String
  networkType : String
  hostname : String
  runtime : String
  privileged : Bool
  removeAnonVolumes : Bool
  env : List (String × String)
  labels : List (String × String)
  devices : List Devices
  volumes : List Volumes
  portBindings : List PortBindings
  cpupin : Cpupin
  restartPolicy : RestartPolicy
  cmd : List String
  entrypoint : List String
  dns : List String
  status : String
deriving Repr, DecidableEq

/-- The `ContainerSpecModel` with every attribute known, built from plain
data. -/
def PlainSpec.toModel (p : PlainSpec) : ContainerSpecModel :=
  { id := .value ""
    type := .value p.type
    name := .value p.name
    image := .value p.image
    ipAddress := .value p.ipAddress
    autoRemove := .value p.autoRemove
    tty := .value p.tty
    openStdin := .value p.openStdin
    network := .value p.network
    networkType := .value p.networkType
    hostname := .value p.hostname
    lastUpdated := .value ""
    runtime := .value p.runtime
    privileged := .value p.privileged
    removeAnonVolumes := .value p.removeAnonVolumes
    env := .value p.env
    labels := .value p.labels
    devices := .value (p.devices.map devToModel)
    volumes := .value (p.volumes.map volToModel)
    portBindings := .value (p.portBindings.map pbToPlanModel)
    networks := .value []
    cpupin := .value ⟨.value p.cpupin.cpuIDs, .value p.cpupin.type⟩
    restartPolicy := .value ⟨.value p.restartPolicy.name, .value p.restartPolicy.maximumRetryCount⟩
    cmd := .value (p.cmd.map TF.value)
    entrypoint := .value (p.entrypoint.map TF.value)
    dns := .value (p.dns.map TF.value)
    status := .value p.status }

/-! ## Theorems for the claims -/

/-- C1: the claim states `isNotFound` is a total function — true exactly on
a `status: 404,` error whose body is `{"code":1009,"message":"...: No such
container"}`, false on every other combination, and false without panicking
on malformed bodies.  The code is not total: with status 404 and code 1009
but a message that contains no `": "` separator, `strings.Split(resp.Message,
": ")[1]` panics (index out of range) where the claim requires `false`.
The theorem evaluates the embedded `isNotFound` at a matching input (true),
at the panicking input (`none`, the panic marker), and at non-matching and
malformed inputs (false). -/
theorem c1_isNotFound_panics_on_separatorless_message :
    isNotFound "status: 404, body: \x7b\"code\":1009,\"message\":\"Container abc: No such container\"\x7d" = some true
    ∧ isNotFound "status: 404, body: \x7b\"code\":1009,\"message\":\"No such container\"\x7d" = none
    ∧ isNotFound "status: 404, body: \x7b\"code\":1010,\"message\":\"x: No such container\"\x7d" = some false
    ∧ isNotFound "status: 500, body: \x7b\"code\":1009,\"message\":\"x: No such container\"\x7d" = some false
    ∧ isNotFound "status: 404, body: not-json" = some false
    ∧ isNotFound "connection refused" = some false := by
  refine ⟨?_, ?_, ?_, ?_, ?_, ?_⟩ <;> rfl

/-- C6: `CompareStates` returns the freshly fetched state verbatim with
empty diagnostics, independent of the prior state — no reconciliation. -/
theorem c6_CompareStates_returns_fetched_state :
    ∀ (prior₁ prior₂ fetched : ContainerSpecModel),
      CompareStates prior₁ fetched = (fetched, []) ∧
      CompareStates prior₁ fetched = CompareStates prior₂ fetched := by
  intro _ _ _
  exact ⟨rfl, rfl⟩

/-- C8: the Update handler of the container resource and of the
compose-based application resource issues no API call and leaves the
response state exactly as it received it (replacement is delegated to the
host runtime via RequiresReplace annotations). -/
theorem c8_update_handlers_are_noops :
    ∀ (plan prior : ContainerSpecModel) (aplan aprior : AppSpecModel),
      containerUpdate plan prior = (prior, []) ∧
      appUpdate aplan aprior = (aprior, []) := by
  intro _ _ _ _
  exact ⟨rfl, rfl⟩

/-! ### Sample inputs for the witnesses -/

/-- The all-null (Go zero value) container model. -/
def nullModel : ContainerSpecModel :=
  { id := .null, type := .null, name := .null, image := .null, ipAddress := .null,
    autoRemove := .null, tty := .null, openStdin := .null, network := .null,
    networkType := .null, hostname := .null, lastUpdated := .null, runtime := .null,
    privileged := .null, removeAnonVolumes := .null, env := .null, labels := .null,
    devices := .null, volumes := .null, portBindings := .null, networks := .null,
    cpupin := .null, restartPolicy := .null, cmd := .null, entrypoint := .null,
    dns := .null, status := .null }

/-- A sample response network. -/
def sampleNet : RespNetwork :=
  ⟨"n1", "bridge", "10.0.3.13", "Container Network", "02:42:0a:00:03:0d",
   "10.0.3.1", "default", false⟩

/-- A sample successful inspect/create response. -/
def sampleData : ContainerData :=
  { id := "cid123", name := "bazarr", image := "linuxserver/bazarr:latest",
    type := "docker", status := "running", hostname := "bazarr", runtime := "runc",
    autoRemove := false, tty := true, openStdin := true, privileged := false,
    cmd := ["run"], entrypoint := [], dns := ["1.1.1.1"],
    env := [("K", "V")], labels := [("l", "v")],
    networks := [sampleNet],
    volumes := [⟨"volume", "volume_1", "", "/src", "/config", "writable"⟩],
    devices := [⟨"/dev/dri", "rw"⟩],
    portBindings := [⟨49116, 6767, "TCP", "0.0.0.0"⟩],
    restartPolicy := ⟨"always", 0⟩, cpupin := ⟨"0", "shared"⟩ }

/-- `sampleData` with its network list emptied (the `WriteState` panic
input). -/
def emptyNetData : ContainerData :=
  { sampleData with networks := [] }

/-- A sample persisted prior state. -/
def samplePrior : ContainerSpecModel :=
  { nullModel with id := .value "cid123", type := .value "docker",
                   removeAnonVolumes := .value true, network := .value "bridge",
                   status := .value "running" }

/-- The state `WriteState` produces from `sampleData`. -/
def sampleWritten : ContainerSpecModel :=
  (WriteState "t0" sampleData).getD nullModel

/-- A not-found error string as the remote API formats it. -/
def notFoundErr : String :=
  "status: 404, body: \x7b\"code\":1009,\"message\":\"Container abc: No such container\"\x7d"

/-! ### C2, C9, C10 -/

/-- C2: when the container `Read`'s inspect call fails with an error
classified as not-found, the resource is removed from state; with any other
classified error the operation aborts, surfacing the error and keeping the
previously persisted state untouched; on a success whose mapping succeeds
the persisted state is the one built from the response (with the two
carried-over plan fields). -/
theorem c2_container_read_classification :
    ∀ (now : String) (prior : ContainerSpecModel) (e : String)
      (c : ContainerData) (ws : ContainerSpecModel),
      (isNotFound e = some true → containerRead now prior (.error e) = .removed) ∧
      (isNotFound e = some false →
        containerRead now prior (.error e) =
          .aborted "Unable to Read Resource"
            ("An error occurred while reading the resource: " ++ e) prior) ∧
      (WriteState now c = some ws →
        containerRead now prior (.ok c) =
          .updated { ws with removeAnonVolumes := prior.removeAnonVolumes,
                             network := prior.network }) := by
  intro now prior e c ws
  refine ⟨?_, ?_, ?_⟩
  · intro h
    simp only [containerRead, h]
  · intro h
    simp only [containerRead, h]
  · intro h
    simp only [containerRead, h, CompareStates]

/-- Witness for C2 at concrete inputs: a genuine 404/1009 error removes, a
connection error aborts keeping the prior state, a successful inspect
updates. -/
theorem c2_container_read_classification_witness :
    containerRead "t0" samplePrior (.error notFoundErr) = .removed ∧
    containerRead "t0" samplePrior (.error "connection refused") =
      .aborted "Unable to Read Resource"
        ("An error occurred while reading the resource: " ++ "connection refused") samplePrior ∧
    containerRead "t0" samplePrior (.ok sampleData) =
      .updated { sampleWritten with removeAnonVolumes := samplePrior.removeAnonVolumes,
                                    network := samplePrior.network } := by
  obtain ⟨h1, -, -⟩ :=
    c2_container_read_classification "t0" samplePrior notFoundErr sampleData sampleWritten
  obtain ⟨-, h2, h3⟩ :=
    c2_container_read_classification "t0" samplePrior "connection refused" sampleData sampleWritten
  exact ⟨h1 rfl, h2 rfl, h3 rfl⟩

/-- C9: the `removeanonvolumes` flag stored at create time comes from the
plan, every successful `Read` carries it over from the prior state (never
from the server response), and `Delete` forwards exactly the stored flag. -/
theorem c9_removeAnonVolumes_lifecycle :
    ∀ (now : String) (plan prior : ContainerSpecModel) (c : ContainerData)
      (insp : Except String ContainerData) (s st : ContainerSpecModel),
      (containerCreateState now plan c = some st →
        st.removeAnonVolumes = plan.removeAnonVolumes) ∧
      (containerRead now prior insp = .updated s →
        s.removeAnonVolumes = prior.removeAnonVolumes) ∧
      containerDeleteCalls prior =
        [.deleteContainer prior.id.valueStr prior.type.valueStr
          prior.removeAnonVolumes.valueBool] := by
  intro now plan prior c insp s st
  refine ⟨?_, ?_, rfl⟩
  · intro h
    unfold containerCreateState at h
    cases hw : WriteState now c with
    | none =>
      rw [hw] at h
      simp at h
    | some w =>
      rw [hw] at h
      simp only [Option.map_some', Option.some.injEq] at h
      rw [← h]
  · intro h
    cases insp with
    | error e =>
      cases hnf : isNotFound e with
      | none =>
        simp only [containerRead, hnf] at h
        exact ReadOutcome.noConfusion h
      | some b =>
        cases b <;> simp only [containerRead, hnf] at h <;> exact ReadOutcome.noConfusion h
    | ok c' =>
      cases hw : WriteState now c' with
      | none =>
        simp only [containerRead, hw] at h
        exact ReadOutcome.noConfusion h
      | some w =>
        simp only [containerRead, hw, CompareStates, ReadOutcome.updated.injEq] at h
        rw [← h]

/-- The state persisted by a create at the sample inputs. -/
def sampleCreated : ContainerSpecModel :=
  (containerCreateState "t0" samplePrior sampleData).getD nullModel

/-- The state persisted by a successful read at the sample inputs. -/
def sampleReadUpdated : ContainerSpecModel :=
  { sampleWritten with removeAnonVolumes := samplePrior.removeAnonVolumes,
                       network := samplePrior.network }

/-- Witness for C9 at concrete inputs. -/
theorem c9_removeAnonVolumes_lifecycle_witness :
    sampleCreated.removeAnonVolumes = samplePrior.removeAnonVolumes ∧
    sampleReadUpdated.removeAnonVolumes = samplePrior.removeAnonVolumes ∧
    containerDeleteCalls samplePrior = [.deleteContainer "cid123" "docker" true] := by
  obtain ⟨h1, h2, h3⟩ :=
    c9_removeAnonVolumes_lifecycle "t0" samplePrior samplePrior sampleData
      (.ok sampleData) sampleReadUpdated sampleCreated
  refine ⟨h1 rfl, h2 rfl, ?_⟩
  rw [h3]
  rfl

/-- C10: `WriteState` is defined only when the response has at least one
network (it panics — `none` — exactly on an empty network list); with at
least one network it is total, and the state's `ipaddress` is the single
network's IP when there is exactly one network with a non-empty IP, and the
empty string otherwise. -/
theorem c10_WriteState_requires_network :
    ∀ (now : String) (c : ContainerData),
      (WriteState now c = none ↔ c.networks = []) ∧
      (∀ n0 rest, c.networks = n0 :: rest →
        ∃ s, WriteState now c = some s ∧
          s.ipAddress =
            .value (if c.networks.length = 1 ∧ n0.ipAddress ≠ "" then n0.ipAddress else "")) := by
  intro now c
  constructor
  · constructor
    · intro hnone
      cases hx : c.networks with
      | nil => rfl
      | cons a l =>
        unfold WriteState at hnone
        rw [hx] at hnone
        simp at hnone
    · intro h
      unfold WriteState
      rw [h]
  · intro n0 rest h
    unfold WriteState
    rw [h]
    exact ⟨_, rfl, rfl⟩

/-- Witness for C10: the sample response (one network, non-empty IP) maps
to a state whose ipaddress is that IP; the empty-network response hits the
panic case. -/
theorem c10_WriteState_requires_network_witness :
    WriteState "t0" emptyNetData = none ∧
    ∃ s, WriteState "t0" sampleData = some s ∧ s.ipAddress = .value "10.0.3.13" := by
  have h1 := (c10_WriteState_requires_network "t0" emptyNetData).1.mpr rfl
  obtain ⟨s, hs, hip⟩ := (c10_WriteState_requires_network "t0" sampleData).2 sampleNet [] rfl
  refine ⟨h1, s, hs, ?_⟩
  rw [hip]
  rfl

/-! ### C5 -/

/-- A plan whose desired status is `running`. -/
def runPlan : ContainerSpecModel :=
  { nullModel with status := .value "running", type := .value "docker",
                   name := .value "c1" }

/-- A create response whose actual status is `stopped`. -/
def stoppedResp : ContainerData :=
  { sampleData with status := "stopped" }

/-- C5 counterexample: the current container `Create` issues no start call
even when the plan's desired status is `running` and the creation
response's status is `stopped` — the claimed "exactly one start call" fails
at this input (the count of start calls is 0, not 1). -/
theorem c5_create_reconciliation_counterexample :
    runPlan.status = .value "running" ∧
    stoppedResp.status = "stopped" ∧
    (containerCreateCalls runPlan stoppedResp).countP ApiCall.isStart = 0 := by
  refine ⟨rfl, rfl, rfl⟩

/-- C5 amended: only the legacy container resource variant reconciles the
desired status after create — exactly one start call when the plan desires
`running` and the response differs, exactly one stop call in the symmetric
case, and no call when they match; the current container resource's
`Create` issues no start or stop call at all. -/
theorem c5_desired_status_reconciliation :
    ∀ (plan : ContainerSpecModel) (c resp : ContainerData),
      (plan.status = .value "running" → c.status ≠ "running" →
        legacyStatusRecon plan c = [.startContainer c.id plan.type.valueStr]) ∧
      (plan.status = .value "stopped" → c.status ≠ "stopped" →
        legacyStatusRecon plan c = [.stopContainer c.id plan.type.valueStr]) ∧
      (plan.status.valueStr = c.status → legacyStatusRecon plan c = []) ∧
      (containerCreateCalls plan resp).all (fun a => !a.isStart && !a.isStop) = true := by
  intro plan c resp
  refine ⟨?_, ?_, ?_, rfl⟩
  · intro h hne
    unfold legacyStatusRecon
    rw [h]
    simp [TF.valueStr, hne]
  · intro h hne
    unfold legacyStatusRecon
    rw [h]
    simp [TF.valueStr, hne]
  · intro h
    unfold legacyStatusRecon
    split_ifs with h1 h2
    · exact absurd (h.symm.trans h1.1) h1.2
    · exact absurd (h.symm.trans h2.1) h2.2
    · rfl

/-- Witness for C5 (amended) at concrete inputs: desired `running` vs
actual `stopped` yields exactly the one start call; matching statuses yield
none. -/
theorem c5_desired_status_reconciliation_witness :
    legacyStatusRecon runPlan stoppedResp = [.startContainer "cid123" "docker"] ∧
    legacyStatusRecon runPlan sampleData = [] := by
  obtain ⟨h1, -, -, -⟩ := c5_desired_status_reconciliation runPlan stoppedResp sampleData
  obtain ⟨-, -, h3, -⟩ := c5_desired_status_reconciliation runPlan sampleData sampleData
  exact ⟨h1 rfl (by decide), h3 rfl⟩

/-! ### C4 -/

/-- A plan containing one device entry whose required `name` sub-field is
null. -/
def devNullNamePlan : ContainerSpecModel :=
  { nullModel with devices := .value [⟨.null, .value "rw"⟩] }

/-- C4 counterexample: a device entry whose required `name` sub-field is
null is NOT omitted from the outgoing request (it is sent with the zero
value for the name) and NO warning is recorded — the device loop only
checks name-unknown and permission-null. -/
theorem c4_partial_entry_counterexample :
    (ReadStateOrPlan devNullNamePlan).1.devices = [⟨"", "rw"⟩] ∧
    (ReadStateOrPlan devNullNamePlan).2 = [] := by
  exact ⟨rfl, rfl⟩

/-- The device-entry skip condition the code actually applies. -/
def deviceSkipped (d : DevicesModel) : Bool :=
  d.name.isUnknown || d.permission.isNull

/-- Characterization of the volume loop: entries with any unknown/null
sub-field are dropped with one warning each; all others are mapped in
order. -/
theorem processVolumes_eq (vs : List VolumesModel) :
    processVolumes vs =
      ((vs.filter (fun v => !volumeSkipped v)).map
        (fun v => ⟨v.type.valueStr, v.name.valueStr, v.container.valueStr,
                   v.source.valueStr, v.destination.valueStr, v.permission.valueStr⟩),
       (vs.filter volumeSkipped).map
        (fun _ => Diag.warning "Volume attributes are unknown or null"
          "Skipping processing of a volume because one or more attributes are unknown or null.")) := by
  induction vs with
  | nil => rfl
  | cons v rest ih =>
    unfold processVolumes
    rw [ih]
    cases h : volumeSkipped v <;> simp [List.filter_cons, h]

/-- Characterization of the port-binding loop. -/
theorem processPortBindings_eq (ps : List PortBindingsModel) :
    processPortBindings ps =
      ((ps.filter (fun p => !portBindingSkipped p)).map
        (fun p => ⟨p.host.valueInt, p.container.valueInt, p.protocol.valueStr, p.hostIP.valueStr⟩),
       (ps.filter portBindingSkipped).map
        (fun _ => Diag.warning "Port binding attributes are unknown or null"
          "Skipping processing of a port binding because one or more attributes are unknown or null.")) := by
  induction ps with
  | nil => rfl
  | cons p rest ih =>
    unfold processPortBindings
    rw [ih]
    cases h : portBindingSkipped p <;> simp [List.filter_cons, h]

/-- Characterization of the device loop: only name-unknown or
permission-null entries are dropped (a null name or unknown permission
entry sails through with zero values). -/
theorem processDevices_eq (ds : List DevicesModel) :
    processDevices ds =
      ((ds.filter (fun d => !deviceSkipped d)).map
        (fun d => ⟨d.name.valueStr, d.permission.valueStr⟩),
       (ds.filter deviceSkipped).map
        (fun d =>
          if d.name.isUnknown then
            Diag.warning "Device key is unknown" "The device_key is unknown, skipping processing."
          else
            Diag.warning "Device key is null" "The device_key is null, skipping processing.")) := by
  induction ds with
  | nil => rfl
  | cons d rest ih =>
    unfold processDevices
    rw [ih]
    cases hn : d.name.isUnknown <;> cases hp : d.permission.isNull <;>
      simp [List.filter_cons, deviceSkipped, hn, hp]

/-- No diagnostic the volume loop emits is an error. -/
theorem processVolumes_no_errors (vs : List VolumesModel) :
    (processVolumes vs).2.all (fun d => !d.isErr) = true := by
  rw [processVolumes_eq]
  simp [List.all_eq_true, Diag.isErr]

/-- No diagnostic the port-binding loop emits is an error. -/
theorem processPortBindings_no_errors (ps : List PortBindingsModel) :
    (processPortBindings ps).2.all (fun d => !d.isErr) = true := by
  rw [processPortBindings_eq]
  simp [List.all_eq_true, Diag.isErr]

/-- No diagnostic the device loop emits is an error. -/
theorem processDevices_no_errors (ds : List DevicesModel) :
    (processDevices ds).2.all (fun d => !d.isErr) = true := by
  rw [processDevices_eq]
  simp only [List.all_eq_true, List.mem_map]
  rintro x ⟨d, -, rfl⟩
  split <;> rfl

/-- `ReadStateOrPlan` never emits a fatal diagnostic: partially-populated
structured blocks degrade to warnings and the mapping always succeeds. -/
theorem readStateOrPlan_no_errors (plan : ContainerSpecModel) :
    ((ReadStateOrPlan plan).2.all (fun d => !d.isErr)) = true := by
  unfold ReadStateOrPlan
  simp only [List.all_append, Bool.and_eq_true]
  refine ⟨⟨⟨⟨?_, ?_⟩, ?_⟩, ?_⟩, ?_⟩
  · split
    · exact processDevices_no_errors _
    · rfl
  · split
    · exact processVolumes_no_errors _
    · rfl
  · split
    · exact processPortBindings_no_errors _
    · rfl
  · split
    · split <;> rfl
    · rfl
  · split
    · split <;> rfl
    · rfl

/-- The restart-policy skip condition: any sub-field unknown or null. -/
def restartPolicySkipped (p : RestartPolicyModel) : Bool :=
  p.name.isUnknown || p.name.isNull ||
  p.maximumRetryCount.isUnknown || p.maximumRetryCount.isNull

/-- The cpu-pin skip condition: any sub-field unknown or null. -/
def cpupinSkipped (p : CpupinModel) : Bool :=
  p.cpuIDs.isUnknown || p.cpuIDs.isNull || p.type.isUnknown || p.type.isNull

/-- A present restart-policy block with a missing sub-field is omitted from
the request (left at the zero value) and its warning is recorded. -/
theorem readStateOrPlan_restartPolicy_omitted (plan : ContainerSpecModel)
    (rp : RestartPolicyModel) (h : plan.restartPolicy = .value rp)
    (hskip : restartPolicySkipped rp = true) :
    (ReadStateOrPlan plan).1.restartPolicy = ⟨"", 0⟩ ∧
    Diag.warning "Port binding attributes are unknown or null"
      "Skipping processing of a port binding because one or more attributes are unknown or null."
        ∈ (ReadStateOrPlan plan).2 := by
  obtain ⟨nm, mrc⟩ := rp
  constructor <;>
    cases nm <;> cases mrc <;>
      simp [restartPolicySkipped, ReadStateOrPlan, h, TF.isNull, TF.isUnknown,
            TF.objOr] at hskip ⊢

/-- A present restart-policy block with all sub-fields known is mapped into
the request. -/
theorem readStateOrPlan_restartPolicy_kept (plan : ContainerSpecModel)
    (rp : RestartPolicyModel) (h : plan.restartPolicy = .value rp)
    (hk : restartPolicySkipped rp = false) :
    (ReadStateOrPlan plan).1.restartPolicy =
      ⟨rp.name.valueStr, rp.maximumRetryCount.valueInt⟩ := by
  obtain ⟨nm, mrc⟩ := rp
  cases nm <;> cases mrc <;>
    simp [restartPolicySkipped, ReadStateOrPlan, h, TF.isNull, TF.isUnknown,
          TF.objOr, TF.valueStr, TF.valueInt] at hk ⊢

/-- A present cpu-pin block with a missing sub-field is omitted from the
request (left at the zero value) and its warning is recorded. -/
theorem readStateOrPlan_cpupin_omitted (plan : ContainerSpecModel)
    (cp : CpupinModel) (h : plan.cpupin = .value cp)
    (hskip : cpupinSkipped cp = true) :
    (ReadStateOrPlan plan).1.cpupin = ⟨"", ""⟩ ∧
    Diag.warning "Port binding attributes are unknown or null"
      "Skipping processing of a port binding because one or more attributes are unknown or null."
        ∈ (ReadStateOrPlan plan).2 := by
  obtain ⟨ids, ty⟩ := cp
  constructor <;>
    cases ids <;> cases ty <;>
      simp [cpupinSkipped, ReadStateOrPlan, h, TF.isNull, TF.isUnknown,
            TF.objOr] at hskip ⊢

/-- A present cpu-pin block with all sub-fields known is mapped into the
request. -/
theorem readStateOrPlan_cpupin_kept (plan : ContainerSpecModel)
    (cp : CpupinModel) (h : plan.cpupin = .value cp)
    (hk : cpupinSkipped cp = false) :
    (ReadStateOrPlan plan).1.cpupin = ⟨cp.cpuIDs.valueStr, cp.type.valueStr⟩ := by
  obtain ⟨ids, ty⟩ := cp
  cases ids <;> cases ty <;>
    simp [cpupinSkipped, ReadStateOrPlan, h, TF.isNull, TF.isUnknown,
          TF.objOr, TF.valueStr] at hk ⊢

/-- C4 amended: for port bindings, volumes, the restart-policy block and
the cpu-pin block, any unknown/null required sub-field causes the
entry/block to be omitted from the request with a non-fatal warning while
the remaining entries continue to be mapped (a fully-known block is mapped
through); for devices, only an unknown name or a null permission is caught
— an entry with a null name or unknown permission is still sent, carrying
zero values.  In every case the overall mapping emits no fatal
diagnostic. -/
theorem c4_partial_entries_skipped :
    ∀ (ds : List DevicesModel) (vs : List VolumesModel) (ps : List PortBindingsModel)
      (plan : ContainerSpecModel),
      processVolumes vs =
        ((vs.filter (fun v => !volumeSkipped v)).map
          (fun v => ⟨v.type.valueStr, v.name.valueStr, v.container.valueStr,
                     v.source.valueStr, v.destination.valueStr, v.permission.valueStr⟩),
         (vs.filter volumeSkipped).map
          (fun _ => Diag.warning "Volume attributes are unknown or null"
            "Skipping processing of a volume because one or more attributes are unknown or null.")) ∧
      processPortBindings ps =
        ((ps.filter (fun p => !portBindingSkipped p)).map
          (fun p => ⟨p.host.valueInt, p.container.valueInt, p.protocol.valueStr, p.hostIP.valueStr⟩),
         (ps.filter portBindingSkipped).map
          (fun _ => Diag.warning "Port binding attributes are unknown or null"
            "Skipping processing of a port binding because one or more attributes are unknown or null.")) ∧
      processDevices ds =
        ((ds.filter (fun d => !deviceSkipped d)).map
          (fun d => ⟨d.name.valueStr, d.permission.valueStr⟩),
         (ds.filter deviceSkipped).map
          (fun d =>
            if d.name.isUnknown then
              Diag.warning "Device key is unknown" "The device_key is unknown, skipping processing."
            else
              Diag.warning "Device key is null" "The device_key is null, skipping processing.")) ∧
      ((ReadStateOrPlan plan).2.all (fun d => !d.isErr)) = true ∧
      (∀ rp : RestartPolicyModel, plan.restartPolicy = .value rp →
        (restartPolicySkipped rp = true →
          (ReadStateOrPlan plan).1.restartPolicy = ⟨"", 0⟩ ∧
          Diag.warning "Port binding attributes are unknown or null"
            "Skipping processing of a port binding because one or more attributes are unknown or null."
              ∈ (ReadStateOrPlan plan).2) ∧
        (restartPolicySkipped rp = false →
          (ReadStateOrPlan plan).1.restartPolicy =
            ⟨rp.name.valueStr, rp.maximumRetryCount.valueInt⟩)) ∧
      (∀ cp : CpupinModel, plan.cpupin = .value cp →
        (cpupinSkipped cp = true →
          (ReadStateOrPlan plan).1.cpupin = ⟨"", ""⟩ ∧
          Diag.warning "Port binding attributes are unknown or null"
            "Skipping processing of a port binding because one or more attributes are unknown or null."
              ∈ (ReadStateOrPlan plan).2) ∧
        (cpupinSkipped cp = false →
          (ReadStateOrPlan plan).1.cpupin = ⟨cp.cpuIDs.valueStr, cp.type.valueStr⟩)) := by
  intro ds vs ps plan
  refine ⟨processVolumes_eq vs, processPortBindings_eq ps, processDevices_eq ds,
          readStateOrPlan_no_errors plan, ?_, ?_⟩
  · intro rp h
    exact ⟨fun hskip => readStateOrPlan_restartPolicy_omitted plan rp h hskip,
           fun hk => readStateOrPlan_restartPolicy_kept plan rp h hk⟩
  · intro cp h
    exact ⟨fun hskip => readStateOrPlan_cpupin_omitted plan cp h hskip,
           fun hk => readStateOrPlan_cpupin_kept plan cp h hk⟩

/-- A plan with a restart-policy block whose name is null. -/
def rpSkipPlan : ContainerSpecModel :=
  { nullModel with restartPolicy := .value ⟨.null, .value 3⟩ }

/-- A plan with a fully-known restart-policy block. -/
def rpKeptPlan : ContainerSpecModel :=
  { nullModel with restartPolicy := .value ⟨.value "always", .value 0⟩ }

/-- A plan with a cpu-pin block whose type is unknown. -/
def cpSkipPlan : ContainerSpecModel :=
  { nullModel with cpupin := .value ⟨.value "0", .unknown⟩ }

/-- Witness for the amended C4 at concrete inputs: a restart policy with a
null name is omitted (zero value) with the warning recorded, a fully-known
one is mapped through, and a cpu pin with an unknown type is omitted with
the warning recorded. -/
theorem c4_partial_entries_skipped_witness :
    (ReadStateOrPlan rpSkipPlan).1.restartPolicy = ⟨"", 0⟩ ∧
    Diag.warning "Port binding attributes are unknown or null"
      "Skipping processing of a port binding because one or more attributes are unknown or null."
        ∈ (ReadStateOrPlan rpSkipPlan).2 ∧
    (ReadStateOrPlan rpKeptPlan).1.restartPolicy = ⟨"always", 0⟩ ∧
    (ReadStateOrPlan cpSkipPlan).1.cpupin = ⟨"", ""⟩ ∧
    Diag.warning "Port binding attributes are unknown or null"
      "Skipping processing of a port binding because one or more attributes are unknown or null."
        ∈ (ReadStateOrPlan cpSkipPlan).2 := by
  obtain ⟨-, -, -, -, hrp, -⟩ := c4_partial_entries_skipped [] [] [] rpSkipPlan
  obtain ⟨-, -, -, -, hrp2, -⟩ := c4_partial_entries_skipped [] [] [] rpKeptPlan
  obtain ⟨-, -, -, -, -, hcp⟩ := c4_partial_entries_skipped [] [] [] cpSkipPlan
  have A := (hrp ⟨.null, .value 3⟩ rfl).1 rfl
  have B := (hrp2 ⟨.value "always", .value 0⟩ rfl).2 rfl
  have C := (hcp ⟨.value "0", .unknown⟩ rfl).1 rfl
  exact ⟨A.1, A.2, B, C.1, C.2⟩

/-! ### C7 -/

/-- C7: `validateYAML` errors exactly when the input is unparseable, the
version is empty, no service is defined, or some service lacks both an
image and a build context; otherwise it returns the re-serialized document
with no error. -/
theorem c7_validateYAML_spec :
    ∀ (marshal : ComposeFile → String) (parsed : Option ComposeFile),
      ((∃ e, validateYAML marshal parsed = .error e) ↔
        parsed = none ∨ ∃ c, parsed = some c ∧
          (c.version = "" ∨ c.services = [] ∨
            ∃ p ∈ c.services, p.2.image = "" ∧ p.2.build.context = "")) ∧
      (∀ c, parsed = some c → c.version ≠ "" → c.services ≠ [] →
        (∀ p ∈ c.services, p.2.image ≠ "" ∨ p.2.build.context ≠ "") →
        validateYAML marshal parsed = .ok (marshal c)) := by
  intro marshal parsed
  have hfind : ∀ (c : ComposeFile),
      c.services.find? (fun p => p.2.image == "" && p.2.build.context == "") = none ↔
      ∀ p ∈ c.services, p.2.image ≠ "" ∨ p.2.build.context ≠ "" := by
    intro c
    rw [List.find?_eq_none]
    constructor
    · intro h p hp
      have := h p hp
      simp only [Bool.and_eq_true, beq_iff_eq, not_and_or] at this
      tauto
    · intro h p hp
      have := h p hp
      simp only [Bool.and_eq_true, beq_iff_eq, not_and_or]
      tauto
  constructor
  · constructor
    · rintro ⟨e, he⟩
      cases parsed with
      | none => exact Or.inl rfl
      | some c =>
        refine Or.inr ⟨c, rfl, ?_⟩
        by_cases hv : c.version = ""
        · exact Or.inl hv
        by_cases hs : c.services = []
        · exact Or.inr (Or.inl hs)
        cases hf : c.services.find? (fun p => p.2.image == "" && p.2.build.context == "") with
        | some p =>
          have hmem := List.mem_of_find?_eq_some hf
          have hpred := List.find?_some hf
          simp only [Bool.and_eq_true, beq_iff_eq] at hpred
          exact Or.inr (Or.inr ⟨p, hmem, hpred⟩)
        | none =>
          exfalso
          simp only [validateYAML] at he
          rw [if_neg hv, if_neg (by simp [List.isEmpty_iff, hs]), hf] at he
          exact Except.noConfusion he
    · rintro (h | ⟨c, rfl, h⟩)
      · subst h
        exact ⟨"invalid YAML", rfl⟩
      · simp only [validateYAML]
        by_cases hv : c.version = ""
        · rw [if_pos hv]
          exact ⟨_, rfl⟩
        by_cases hs : c.services = []
        · rw [if_neg hv, if_pos (by simp [hs])]
          exact ⟨_, rfl⟩
        · rcases h with h | h | ⟨p, hp, h1, h2⟩
          · exact absurd h hv
          · exact absurd h hs
          rw [if_neg hv, if_neg (by simp [List.isEmpty_iff, hs])]
          cases hf : c.services.find? (fun q => q.2.image == "" && q.2.build.context == "") with
          | some q => exact ⟨_, rfl⟩
          | none =>
            exfalso
            have := List.find?_eq_none.mp hf p hp
            simp [h1, h2] at this
  · intro c hc hv hs hall
    subst hc
    simp only [validateYAML]
    rw [if_neg hv, if_neg (by simp [List.isEmpty_iff, hs]), (hfind c).mpr hall]

/-- A sample two-service compose document. -/
def sampleCompose : ComposeFile :=
  ⟨"3", [("postgres", ⟨"postgres:15.1", ⟨"", ""⟩⟩),
         ("phppgadmin", ⟨"qnapsystem/phppgadmin:7.13.0-1", ⟨"", ""⟩⟩)]⟩

/-- Witness for C7 at concrete inputs: the sample document validates and is
re-serialized; a versionless document errors. -/
theorem c7_validateYAML_spec_witness :
    validateYAML (fun _ => "serialized") (some sampleCompose) = .ok "serialized" ∧
    ∃ e, validateYAML (fun _ => "serialized") (some ⟨"", sampleCompose.services⟩) = .error e := by
  constructor
  · exact (c7_validateYAML_spec (fun _ => "serialized") (some sampleCompose)).2 sampleCompose rfl
      (by decide) (by decide) (by decide)
  · exact (c7_validateYAML_spec (fun _ => "serialized")
      (some ⟨"", sampleCompose.services⟩)).1.mpr
      (Or.inr ⟨⟨"", sampleCompose.services⟩, rfl, Or.inl rfl⟩)

/-! ### C3 -/

/-- A sample fully-known spec. -/
def plainSample : PlainSpec :=
  { type := "docker", name := "web", image := "nginx:latest", ipAddress := "10.0.0.5",
    autoRemove := false, tty := true, openStdin := false, network := "eth0",
    networkType := "bridge", hostname := "web-host", runtime := "runc",
    privileged := false, removeAnonVolumes := true,
    env := [("A", "1")], labels := [("l", "v")],
    devices := [⟨"/dev/dri", "rw"⟩],
    volumes := [⟨"volume", "v1", "", "/src", "/dst", "writable"⟩],
    portBindings := [⟨8080, 80, "tcp", "0.0.0.0"⟩],
    cpupin := ⟨"0", "shared"⟩, restartPolicy := ⟨"always", 0⟩,
    cmd := ["run", "serve"], entrypoint := ["entry"], dns := ["1.1.1.1"],
    status := "running" }

/-- C3 counterexample: for a spec with every field known and non-null, the
request → echoed-response → `WriteState` round trip yields a state whose
`network` attribute is null, not the spec's value — `WriteState` never
writes `network` (the lifecycle handlers patch it back from the plan), so
the claimed "every field present in the spec appears identically" fails at
this input. -/
theorem c3_round_trip_counterexample :
    plainSample.toModel.network = .value "eth0" ∧
    (WriteState "t0" (echoResponse (ReadStateOrPlan plainSample.toModel).1 "cid9" "running")).map
      (fun s => s.network) = some .null := by
  exact ⟨rfl, rfl⟩

/-- Mapping a function that is the identity on every element of a list is
the identity. -/
theorem mapIdOfMem {α : Type} {l : List α} {f : α → α} (h : ∀ a ∈ l, f a = a) :
    l.map f = l := by
  induction l with
  | nil => rfl
  | cons a rest ih =>
    simp only [List.map_cons, h a (List.mem_cons_self a rest), List.cons.injEq, true_and]
    exact ih (fun b hb => h b (List.mem_cons_of_mem a hb))

/-- When every protocol is already lower-case, the response-path port
binding conversion agrees with the plan-model one. -/
theorem mapLowerPb {ps : List PortBindings}
    (h : ∀ b ∈ ps, lowerString b.protocol = b.protocol) :
    ps.map pbToModel = ps.map pbToPlanModel := by
  induction ps with
  | nil => rfl
  | cons b rest ih =>
    simp only [List.map_cons, List.cons.injEq]
    exact ⟨by simp [pbToModel, pbToPlanModel, h b (List.mem_cons_self b rest)],
           ih (fun b' hb' => h b' (List.mem_cons_of_mem b hb'))⟩

/-- The device loop keeps every fully-known entry, in order. -/
theorem processDevices_plain (ds : List Devices) :
    processDevices (ds.map devToModel) = (ds, []) := by
  induction ds with
  | nil => rfl
  | cons d rest ih =>
    simp [processDevices, devToModel, TF.isUnknown, TF.isNull, TF.valueStr, ih]

/-- The volume loop keeps every fully-known entry, in order. -/
theorem processVolumes_plain (vs : List Volumes) :
    processVolumes (vs.map volToModel) = (vs, []) := by
  induction vs with
  | nil => rfl
  | cons v rest ih =>
    simp [processVolumes, volToModel, volumeSkipped, TF.isUnknown, TF.isNull, TF.valueStr, ih]

/-- The port-binding loop keeps every fully-known entry, in order. -/
theorem processPortBindings_plain (ps : List PortBindings) :
    processPortBindings (ps.map pbToPlanModel) = (ps, []) := by
  induction ps with
  | nil => rfl
  | cons b rest ih =>
    simp [processPortBindings, pbToPlanModel, portBindingSkipped, TF.isUnknown, TF.isNull,
          TF.valueStr, TF.valueInt, ih]

/-- `ReadStateOrPlan` on a fully-known plan: no warnings, every structured
entry mapped, string-list elements rendered and quote-stripped. -/
theorem readStateOrPlan_plain (p : PlainSpec) :
    ReadStateOrPlan p.toModel =
      ({ type := p.type, name := p.name, image := p.image,
         autoRemove := p.autoRemove, tty := p.tty, openStdin := p.openStdin,
         network := p.network, networkType := p.networkType, hostname := p.hostname,
         runtime := p.runtime, privileged := p.privileged, ipAddress := p.ipAddress,
         devices := p.devices, volumes := p.volumes, portBindings := p.portBindings,
         restartPolicy := p.restartPolicy, cpupin := p.cpupin,
         env := p.env, labels := p.labels,
         cmd := p.cmd.map (fun s => stripQuotes (goQuote s)),
         entrypoint := p.entrypoint.map (fun s => stripQuotes (goQuote s)),
         dns := p.dns.map (fun s => stripQuotes (goQuote s)) }, []) := by
  simp [ReadStateOrPlan, PlainSpec.toModel, TF.isNull, TF.isUnknown, TF.elems, TF.objOr,
        TF.valueStr, TF.valueBool, TF.valueInt, tfElemRender,
        processDevices_plain, processVolumes_plain, processPortBindings_plain]

/-- C3 amended: the round trip preserves every spec field except `network`
and `removeanonvolumes` (which `WriteState` never writes — the lifecycle
handlers re-attach them from the plan) and `status` (which is not part of
the request; the state takes the response's status); port-binding protocols
must already be lower-case (the response path lower-cases them) and
`cmd`/`entrypoint`/`dns` elements must survive the render-and-strip of the
request path (no quote or backslash characters). -/
theorem c3_round_trip_preserves_fields :
    ∀ (p : PlainSpec) (now cid status : String),
      (∀ b ∈ p.portBindings, lowerString b.protocol = b.protocol) →
      (∀ s ∈ p.cmd, stripQuotes (goQuote s) = s) →
      (∀ s ∈ p.entrypoint, stripQuotes (goQuote s) = s) →
      (∀ s ∈ p.dns, stripQuotes (goQuote s) = s) →
      ∃ st, WriteState now (echoResponse (ReadStateOrPlan p.toModel).1 cid status) = some st ∧
        st.type = p.toModel.type ∧ st.name = p.toModel.name ∧ st.image = p.toModel.image ∧
        st.autoRemove = p.toModel.autoRemove ∧ st.tty = p.toModel.tty ∧
        st.openStdin = p.toModel.openStdin ∧ st.hostname = p.toModel.hostname ∧
        st.runtime = p.toModel.runtime ∧ st.privileged = p.toModel.privileged ∧
        st.networkType = p.toModel.networkType ∧ st.ipAddress = p.toModel.ipAddress ∧
        st.env = p.toModel.env ∧ st.labels = p.toModel.labels ∧
        st.cmd = p.toModel.cmd ∧ st.entrypoint = p.toModel.entrypoint ∧
        st.dns = p.toModel.dns ∧ st.devices = p.toModel.devices ∧
        st.volumes = p.toModel.volumes ∧ st.portBindings = p.toModel.portBindings ∧
        st.restartPolicy = p.toModel.restartPolicy ∧ st.cpupin = p.toModel.cpupin ∧
        st.status = .value status := by
  intro p now cid status hproto hcmd hent hdns
  rw [readStateOrPlan_plain]
  have hc : p.cmd.map (fun s => stripQuotes (goQuote s)) = p.cmd := mapIdOfMem hcmd
  have he : p.entrypoint.map (fun s => stripQuotes (goQuote s)) = p.entrypoint := mapIdOfMem hent
  have hd : p.dns.map (fun s => stripQuotes (goQuote s)) = p.dns := mapIdOfMem hdns
  have hpb : p.portBindings.map pbToModel = p.portBindings.map pbToPlanModel :=
    mapLowerPb hproto
  refine ⟨_, rfl, ?_, ?_, ?_, ?_, ?_, ?_, ?_, ?_, ?_, ?_, ?_, ?_, ?_, ?_, ?_, ?_, ?_, ?_, ?_,
          ?_, ?_, ?_⟩ <;>
    simp only [WriteState, echoResponse, PlainSpec.toModel] <;>
    try rfl
  · by_cases hip : p.ipAddress = ""
    · simp [hip]
    · simp [hip]
  all_goals simp only [hc, he, hd, hpb]

/-- Witness for the amended C3 at the sample spec. -/
theorem c3_round_trip_preserves_fields_witness :
    ∃ st, WriteState "t0" (echoResponse (ReadStateOrPlan plainSample.toModel).1 "cid9" "running") = some st ∧
      st.name = plainSample.toModel.name ∧ st.image = plainSample.toModel.image ∧
      st.ipAddress = plainSample.toModel.ipAddress := by
  obtain ⟨st, hst, h⟩ :=
    c3_round_trip_preserves_fields plainSample "t0" "cid9" "running"
      (by decide) (by decide) (by decide) (by decide)
  exact ⟨st, hst, h.2.1, h.2.2.1, h.2.2.2.2.2.2.2.2.2.2.1⟩

end Qnap
